import Mathlib

set_option maxRecDepth 100000

/-!
Verification development for the orthophotos-downloader repository.

The Python source is shallowly embedded in Lean 4:

* geometries handled by the claims (area polygons, masks, grid tiles) are
  axis-aligned rectangles over exact rationals, mirroring the bounding-box
  arithmetic of `ImageDownloader._make_grid`;
* filesystem paths are plain strings; writing images to disk, the network
  requests of `owslib`, and the raster decoding done per tile are external
  effects and are modelled by explicit oracles passed to the embedded
  functions (the claims quantify over the behaviour of those effects);
* wall-clock timing (`perf_counter`) is external and modelled as 0;
* Python exceptions are modelled by `Except String` (or `Option` where a
  single failure mode exists); numeric values are `ℚ`/`ℤ` with exact
  arithmetic, matching the `Decimal` check in `ImageDownloader.__init__`.
-/

namespace Ortho

/-- Axis-aligned rectangle `(minx, miny, maxx, maxy)`, the embedding of the
shapely bounding boxes and of the square grid tiles built by
`ImageDownloader._make_grid`. -/
structure Rect where
  minx : ℚ
  miny : ℚ
  maxx : ℚ
  maxy : ℚ
deriving DecidableEq, Repr, Inhabited

/-- Horizontal gap between the x-ranges of two rectangles (0 when they
overlap or touch in x). -/
def gapX (a b : Rect) : ℚ :=
  max 0 (max (b.minx - a.maxx) (a.minx - b.maxx))

/-- Vertical gap between the y-ranges of two rectangles. -/
def gapY (a b : Rect) : ℚ :=
  max 0 (max (b.miny - a.maxy) (a.miny - b.maxy))

/-- Embedding of shapely's `intersects` for two axis-aligned rectangles:
closed-set intersection, so touching boundaries count. -/
def rectIntersectB (a b : Rect) : Bool :=
  decide (a.minx ≤ b.maxx ∧ b.minx ≤ a.maxx ∧ a.miny ≤ b.maxy ∧ b.miny ≤ a.maxy)

/-- Embedding of `buffered_area.intersects(square)` in `_make_grid`: the
area rectangle buffered by `buf` (Minkowski sum with the closed disk of
radius `buf`, the exact shape shapely's `buffer` approximates) meets the
square iff the squared gap between the rectangles is at most `buf ^ 2`.
For `buf = 0` this is exactly shapely's `intersects`. -/
def bufIntersectB (area : Rect) (buf : ℚ) (sq : Rect) : Bool :=
  decide (gapX area sq * gapX area sq + gapY area sq * gapY area sq ≤ buf * buf)

/-- Open-interior overlap of two rectangles (used to state that grid tiles
are pairwise non-overlapping). -/
def rectOverlap (a b : Rect) : Prop :=
  a.minx < b.maxx ∧ b.minx < a.maxx ∧ a.miny < b.maxy ∧ b.miny < a.maxy

instance (a b : Rect) : Decidable (rectOverlap a b) := by
  unfold rectOverlap; infer_instance

/-- Embedding of `np.arange(start, stop, step)` for a positive step: the
values `start + k * step` with `k < ⌈(stop - start) / step⌉`. -/
def arange (start stop step : ℚ) : List ℚ :=
  (List.range (((stop - start) / step).ceil.toNat)).map (fun k => start + k * step)

/-- Round-half-to-even of a rational to an integer, the rounding used by
Python's `round` (and `numpy`'s) on the grid coordinates. -/
def halfEven (q : ℚ) : ℤ :=
  if q - q.floor < 1/2 then q.floor
  else if q - q.floor > 1/2 then q.floor + 1
  else if q.floor % 2 = 0 then q.floor else q.floor + 1

/-- Embedding of `round(x, -3)`: round to the nearest multiple of 1000,
halves to even. -/
def roundThousand (x : ℚ) : ℚ :=
  1000 * (halfEven (x / 1000) : ℚ)

/-- Embedding of `ImageDownloader._make_grid` for a rectangular area
polygon.  Follows the source line by line: buffer the area (only the
bounds enter the coordinate computation), take `floor`/`ceil` of the
bounds, build `np.arange` coordinate lists, round them to thousands,
extend them by one `grid_spacing` on each side, then enumerate squares
with the outer loop over x and the inner loop over y, keeping squares
that intersect the buffered area.  `none` models the uncaught
`IndexError` the source raises at `x_coords[0]` / `y_coords[-1]` when an
`np.arange` list is empty. -/
def makeGrid (area : Rect) (bufferSize gridSpacing : ℚ) : Option (List Rect) :=
  let minx := area.minx - bufferSize
  let miny := area.miny - bufferSize
  let maxx := area.maxx + bufferSize
  let maxy := area.maxy + bufferSize
  let xc := (arange (minx.floor : ℚ) (maxx.ceil : ℚ) gridSpacing).map roundThousand
  let yc := (arange (miny.floor : ℚ) (maxy.ceil : ℚ) gridSpacing).map roundThousand
  match xc, yc with
  | [], _ => none
  | _, [] => none
  | x0 :: _, y0 :: _ =>
    let xs := (x0 - gridSpacing) :: (xc ++ [xc.getLastD x0 + gridSpacing])
    let ys := (y0 - gridSpacing) :: (yc ++ [yc.getLastD y0 + gridSpacing])
    some (xs.flatMap (fun x => ys.filterMap (fun y =>
      let sq : Rect := ⟨x, y, x + gridSpacing, y + gridSpacing⟩
      if bufIntersectB area bufferSize sq then some sq else none)))

/-! String helpers embedding the Python `str` / `pathlib.Path` operations
used by the source. -/

/-- Boolean prefix test on character lists. -/
def listPreB : List Char → List Char → Bool
  | [], _ => true
  | _ :: _, [] => false
  | a :: as, b :: bs => a == b && listPreB as bs

/-- Propositional prefix relation on character lists. -/
def listPre (p s : List Char) : Prop := ∃ t, p ++ t = s

/-- Substring occurrence: `sub` occurs contiguously inside `s`. -/
def containsSub (sub s : List Char) : Prop := ∃ l r, l ++ sub ++ r = s

/-- The credential `sub` occurs verbatim in the string `s`. -/
def strContains (s sub : String) : Prop := containsSub sub.data s.data

/-- Embedding of Python `s.split(sep)[0]`: the characters before the first
occurrence of `sep` (the whole string when `sep` does not occur). -/
def splitFirst (sep : List Char) : List Char → List Char
  | [] => []
  | c :: rest => if listPreB sep (c :: rest) then [] else c :: splitFirst sep rest

/-- String version of `splitFirst`. -/
def splitFirstS (sep s : String) : String := ⟨splitFirst sep.data s.data⟩

/-- Index of the last `.` in a character list, if any. -/
def lastDotAux : List Char → ℕ → Option ℕ → Option ℕ
  | [], _, acc => acc
  | c :: rest, i, acc => lastDotAux rest (i + 1) (if c = '.' then some i else acc)

/-- Embedding of `pathlib.Path.suffix`: the final extension including the
dot, empty for names with no dot, names starting with the only dot, and
names ending in a dot. -/
def pySuffix (s : String) : String :=
  match lastDotAux s.data 0 none with
  | none => ""
  | some i => if 0 < i ∧ i < s.data.length - 1 then ⟨s.data.drop i⟩ else ""

/-- Embedding of `img_path.with_stem(img_path.stem + "_mask")`: insert
`_mask` between the stem and the suffix. -/
def withStemMask (p : String) : String :=
  let suf := pySuffix p
  (⟨p.data.take (p.data.length - suf.data.length)⟩ : String) ++ "_mask" ++ suf

/-- Embedding of `state_name.replace("/", "_")`. -/
def replaceSlash (s : String) : String :=
  ⟨s.data.map (fun c => if c = '/' then '_' else c)⟩

/-! Data model: `Image`, `AreaDataset`, the WMS client, and the
`ImageDownloader`, with their `to_dict` serializations. -/

/-- Embedding of the frozen dataclass `Image`.  Paths are strings and a
`None` path is `Option.none`; all numeric fields are exact rationals
(pixel counts are integers); `download_time` is modelled as 0 because
wall-clock timing is external. -/
structure Image where
  image_path : Option String
  mask_path : Option String
  upper_left_x : ℚ
  upper_left_y : ℚ
  download_time : ℚ
  width_m : ℚ
  height_m : ℚ
  width_px : ℤ
  height_px : ℤ
  resolution_m : ℚ
  crs : String
deriving DecidableEq, Repr, Inhabited

/-- Serialized form of an `Image` produced by `Image.to_dict`: numeric
values stay numbers, everything else goes through `str`, so a `None` path
becomes the string `"None"`. -/
structure ImageDict where
  image_path : String
  mask_path : String
  upper_left_x : ℚ
  upper_left_y : ℚ
  download_time : ℚ
  width_m : ℚ
  height_m : ℚ
  width_px : ℤ
  height_px : ℤ
  resolution_m : ℚ
  crs : String
deriving DecidableEq, Repr

/-- Embedding of Python `str(v)` for an optional path: `str(None)` is the
string `"None"`. -/
def pyStrOpt : Option String → String
  | some s => s
  | none => "None"

/-- Embedding of `Image.to_dict`. -/
def imageToDict (img : Image) : ImageDict :=
  { image_path := pyStrOpt img.image_path
    mask_path := pyStrOpt img.mask_path
    upper_left_x := img.upper_left_x
    upper_left_y := img.upper_left_y
    download_time := img.download_time
    width_m := img.width_m
    height_m := img.height_m
    width_px := img.width_px
    height_px := img.height_px
    resolution_m := img.resolution_m
    crs := img.crs }

/-- Embedding of re-hydrating `Image(**d)`: `Image.__post_init__` wraps any
non-`None` value in `Path(...)`, and the values coming from a dict are
strings, so the result is always `some` — the string `"None"` becomes the
path `"None"`, not a null path. -/
def imageOfDict (d : ImageDict) : Image :=
  { image_path := some d.image_path
    mask_path := some d.mask_path
    upper_left_x := d.upper_left_x
    upper_left_y := d.upper_left_y
    download_time := d.download_time
    width_m := d.width_m
    height_m := d.height_m
    width_px := d.width_px
    height_px := d.height_px
    resolution_m := d.resolution_m
    crs := d.crs }

/-- Embedding of `ExtendedWebMapService`: the connection descriptor.  The
underlying `owslib` handle stores `url` and `version` verbatim; network
behaviour is modelled by the fetch oracles of the download functions. -/
structure ExtendedWebMapService where
  url : String
  version : String
  resolution : ℚ
  layer_name : String
  crs : String
  format : String
deriving DecidableEq, Repr, Inhabited

/-- Serialized form of the WMS client produced by
`ExtendedWebMapService.to_dict`. -/
structure WmsDict where
  resolution : ℚ
  layer_name : String
  crs : String
  format : String
  url : String
  version : String
deriving DecidableEq, Repr

/-- Embedding of `ExtendedWebMapService.to_dict`: numbers stay numbers,
strings stay strings, the `wms` handle is replaced by its `url` and
`version`. -/
def wmsToDict (w : ExtendedWebMapService) : WmsDict :=
  { resolution := w.resolution
    layer_name := w.layer_name
    crs := w.crs
    format := w.format
    url := w.url
    version := w.version }

/-- Truncation toward zero of a rational, the rounding used by Python
`int()` and by `Decimal` remainders. -/
def ratTrunc (q : ℚ) : ℤ :=
  if 0 ≤ q then q.floor else q.ceil

/-- Embedding of `Decimal(str(a)) % Decimal(str(b))` for exact decimal
operands: the truncated-division remainder. -/
def decimalMod (a b : ℚ) : ℚ :=
  a - b * (ratTrunc (a / b) : ℚ)

/-- Embedding of the `ImageDownloader` attribute record. -/
structure ImageDownloader where
  wms : ExtendedWebMapService
  grid_spacing : ℤ
  width_m : ℤ
  height_m : ℤ
  width_px : ℤ
  height_px : ℤ
deriving DecidableEq, Repr, Inhabited

/-- Embedding of `ImageDownloader.__init__`: derive the pixel dimensions
from the grid spacing and the service resolution (exactly, over ℚ), then
fail with the `ValueError` when the spacing is not a multiple of the
resolution.  The constructor performs no network call and no per-tile
work. -/
def mkImageDownloader (wms : ExtendedWebMapService) (grid_spacing : ℤ) :
    Except String ImageDownloader :=
  if decimalMod (grid_spacing : ℚ) wms.resolution ≠ 0 then
    .error "'grid_spacing' must be a multiple of the resolution of the provided WMS."
  else
    .ok { wms := wms
          grid_spacing := grid_spacing
          width_m := grid_spacing
          height_m := grid_spacing
          width_px := ratTrunc ((grid_spacing : ℚ) / wms.resolution)
          height_px := ratTrunc ((grid_spacing : ℚ) / wms.resolution) }

/-- Serialized form of an `ImageDownloader` produced by its `to_dict`. -/
structure IDDict where
  wms : WmsDict
  grid_spacing : ℤ
  width_m : ℤ
  height_m : ℤ
  width_px : ℤ
  height_px : ℤ
deriving DecidableEq, Repr

/-- Embedding of `ImageDownloader.to_dict`. -/
def idToDict (d : ImageDownloader) : IDDict :=
  { wms := wmsToDict d.wms
    grid_spacing := d.grid_spacing
    width_m := d.width_m
    height_m := d.height_m
    width_px := d.width_px
    height_px := d.height_px }

/-- Embedding of the `AreaDataset` dataclass (polygon kept in memory). -/
structure AreaDataset where
  name : String
  polygon : Rect
  buffer_size : ℚ
  out_path : String
  images : Option (List Image)
deriving DecidableEq, Repr, Inhabited

/-- Serialized form of an `AreaDataset`: the polygon is written to disk
and only its path is stored. -/
structure DSDict where
  name : String
  polygon : String
  buffer_size : ℚ
  out_path : String
  images : List ImageDict
deriving DecidableEq, Repr

/-- Embedding of `AreaDataset.to_dict`: raises when `images` is `None`;
otherwise dumps the polygon to `savePolygonTo` (an external file write,
only the path enters the result) and serializes every image. -/
def areaDatasetToDict (ds : AreaDataset) (savePolygonTo : String) :
    Except String DSDict :=
  match ds.images with
  | none => .error "Cannot convert AreaDataset to dict without images."
  | some imgs =>
      .ok { name := ds.name
            polygon := savePolygonTo
            buffer_size := ds.buffer_size
            out_path := ds.out_path
            images := imgs.map imageToDict }

/-- Embedding of re-hydrating `AreaDataset(**d)`: `__post_init__` converts
each image dict back to an `Image` and reads the polygon back from disk
(an external read, supplied as `polyFromDisk`). -/
def areaDatasetOfDict (d : DSDict) (polyFromDisk : Rect) : AreaDataset :=
  { name := d.name
    polygon := polyFromDisk
    buffer_size := d.buffer_size
    out_path := d.out_path
    images := some (d.images.map imageOfDict) }

/-! Downloader operations. -/

/-- Embedding of a `geopandas.GeoSeries`: a list of geometries together
with a coordinate reference system tag. -/
structure GeoSeries where
  geoms : List Rect
  crs : String
deriving DecidableEq, Repr

/-- Embedding of `ImageDownloader._validate_geoseries`: the series must
contain exactly one geometry and its CRS must match the CRS of the WMS;
otherwise a `ValueError` is raised.  (The `isinstance` check of the source
is enforced by typing.) -/
def validateGeoseries (d : ImageDownloader) (gs : GeoSeries) (argname : String) :
    Except String Unit :=
  if gs.geoms.length ≠ 1 then
    .error ("Expected GeoSeries of length 1 for argument '" ++ argname ++ "'.")
  else if gs.crs ≠ d.wms.crs then
    .error ("CRS of '" ++ argname ++ "' does not match the CRS of the WMS.")
  else
    .ok ()

/-- Validation of the optional mask argument (`if mask is not None:
self._validate_geoseries(mask, "mask")`). -/
def validateMask (d : ImageDownloader) (mask : Option GeoSeries) : Except String Unit :=
  match mask with
  | some m => validateGeoseries d m "mask"
  | none => .ok ()

/-- Embedding of `ImageDownloader._prepare_image_download`: validate the
inputs, build the grid for the (single) area polygon, then drop grid tiles
that do not intersect the mask.  Directory creation is an external side
effect and does not influence the returned grid. -/
def prepareImageDownload (d : ImageDownloader) (areaPolygon : GeoSeries)
    (bufferSize : ℚ) (mask : Option GeoSeries) : Except String (List Rect) :=
  match validateGeoseries d areaPolygon "area_polygon" with
  | .error e => .error e
  | .ok _ =>
    match validateMask d mask with
    | .error e => .error e
    | .ok _ =>
      match makeGrid areaPolygon.geoms.headI bufferSize (d.grid_spacing : ℚ) with
      | none => .error "IndexError: list index out of range"
      | some grid =>
        match mask with
        | some m => .ok (grid.filter (fun t => rectIntersectB t m.geoms.headI))
        | none => .ok grid

/-- Embedding of `ImageDownloader.download_single_image`.  The network
request, raster decoding and file writes are the oracle `fetchTile`; when
it succeeds the returned metadata record is built exactly as in the
source (upper-left corner from the bounding box, dimensions from the
pixel counts and the service resolution). -/
def downloadSingleImage (imgPath : String) (bbox : Rect)
    (wms : ExtendedWebMapService) (widthPx heightPx : ℤ)
    (mask : Option GeoSeries) (fetchTile : Rect → Except String Unit) :
    Except String Image :=
  match fetchTile bbox with
  | .error e => .error e
  | .ok _ =>
    .ok { image_path := some imgPath
          mask_path := if mask.isSome then some (withStemMask imgPath) else none
          upper_left_x := bbox.minx
          upper_left_y := bbox.maxy
          download_time := 0
          width_m := (widthPx : ℚ) * wms.resolution
          height_m := (heightPx : ℚ) * wms.resolution
          width_px := widthPx
          height_px := heightPx
          resolution_m := wms.resolution
          crs := wms.crs }

/-- One iteration of the download loop of
`ImageDownloader.download_images_from_polygon` at 0-based index `i`: on
any exception from the single-tile download, append the failure
placeholder instead of aborting. -/
def downloadStep (d : ImageDownloader) (outPath fileExt : String)
    (mask : Option GeoSeries) (fetch : ℕ → Rect → Except String Unit)
    (i : ℕ) (tile : Rect) : Image :=
  match downloadSingleImage (outPath ++ "/" ++ toString (i + 1) ++ "." ++ fileExt)
      tile d.wms d.width_px d.height_px mask (fetch (i + 1)) with
  | .ok img => img
  | .error _ =>
      { image_path := none
        mask_path := none
        upper_left_x := tile.minx
        upper_left_y := tile.maxy
        download_time := 0
        width_m := (d.grid_spacing : ℚ)
        height_m := (d.grid_spacing : ℚ)
        width_px := d.width_px
        height_px := d.height_px
        resolution_m := d.wms.resolution
        crs := d.wms.crs }

/-- The enumerated download loop (`for i, tile in enumerate(grid)`). -/
def downloadLoop (d : ImageDownloader) (outPath fileExt : String)
    (mask : Option GeoSeries) (fetch : ℕ → Rect → Except String Unit) :
    ℕ → List Rect → List Image
  | _, [] => []
  | i, tile :: rest =>
      downloadStep d outPath fileExt mask fetch i tile ::
        downloadLoop d outPath fileExt mask fetch (i + 1) rest

/-- Embedding of `ImageDownloader.download_images_from_polygon`.  The
oracle `fetch` plays the per-tile fetch/decode/write sequence, indexed by
the 1-based tile number; any failure in it stands for the exception the
source catches per tile. -/
def downloadImagesFromPolygon (d : ImageDownloader) (areaName : String)
    (areaPolygon : GeoSeries) (outPath : String) (bufferSize : ℚ)
    (mask : Option GeoSeries) (fetch : ℕ → Rect → Except String Unit)
    (fileExt : String := "tiff") : Except String AreaDataset :=
  match prepareImageDownload d areaPolygon bufferSize mask with
  | .error e => .error e
  | .ok grid =>
    .ok { name := areaName
          polygon := areaPolygon.geoms.headI
          buffer_size := bufferSize
          out_path := outPath
          images := some (downloadLoop d outPath fileExt mask fetch 0 grid) }

/-- Embedding of `ImageDownloader.delete_images`.  The directory is a
listing of file names (`none` when the path does not exist); the result is
the returned boolean together with the directory state afterwards.  The
OS-level failure branch of the final unlink loop is not modelled (the
claims concern the early-return paths, which the source takes before any
unlink). -/
def deleteImages (dir : Option (List String)) : Bool × Option (List String) :=
  match dir with
  | none => (false, none)
  | some files =>
      if files.any (fun f => !(pySuffix f == ".png" || pySuffix f == ".tiff")) then
        (false, some files)
      else
        (true, none)

/-! Multi-service coordinator (`AutoOrthophotoDownloader`). -/

/-- A detected intersecting jurisdiction: `(state_name, state_code,
intersection_geometry)`. -/
structure StateRec where
  name : String
  code : String
  geom : Rect
deriving DecidableEq, Repr

/-- Embedding of `STATE_TO_RGB_DOWNLOADER`. -/
def stateToRgbDownloader : String → Option String
  | "BW" => some "BW_RGB_Dop20_ImageDownloader"
  | "BY" => some "BY_RGB_Dop20_ImageDownloader"
  | "BE" => some "BE_RGB_Dop20_ImageDownloader"
  | "BB" => some "BB_RGB_Dop20_ImageDownloader"
  | "HB" => some "HB_RGB_Dop20_ImageDownloader"
  | "HH" => some "HH_RGB_Dop20_ImageDownloader"
  | "HE" => some "HE_RGB_Dop20_ImageDownloader"
  | "MV" => some "MV_RGB_Dop20_ImageDownloader"
  | "NI" => some "NI_RGB_Dop20_ImageDownloader"
  | "NW" => some "NW_RGB_Dop20_ImageDownloader"
  | "RP" => some "RP_RGB_Dop20_ImageDownloader"
  | "SL" => some "SL_RGB_Dop20_ImageDownloader"
  | "SN" => some "SN_RGB_Dop20_ImageDownloader"
  | "ST" => some "ST_RGB_Dop20_ImageDownloader"
  | "SH" => some "SH_RGB_Dop20_ImageDownloader"
  | "TH" => some "TH_RGB_Dop20_ImageDownloader"
  | _ => none

/-- Embedding of `STATE_TO_CIR_DOWNLOADER`. -/
def stateToCirDownloader : String → Option String
  | "BW" => some "BW_CIR_Dop20_ImageDownloader"
  | "BY" => some "BY_CIR_Dop20_ImageDownloader"
  | "BE" => some "BE_CIR_Dop20_ImageDownloader"
  | "BB" => some "BB_CIR_Dop20_ImageDownloader"
  | "HB" => some "HB_CIR_Dop20_ImageDownloader"
  | "HH" => some "HH_CIR_Dop20_ImageDownloader"
  | "HE" => some "HE_CIR_Dop20_ImageDownloader"
  | "MV" => some "MV_CIR_Dop20_ImageDownloader"
  | "NI" => some "NI_CIR_Dop20_ImageDownloader"
  | "NW" => some "NW_CIR_Dop20_ImageDownloader"
  | "RP" => some "RP_CIR_Dop20_ImageDownloader"
  | "SL" => some "SL_CIR_Dop20_ImageDownloader"
  | "SN" => some "SN_CIR_Dop20_ImageDownloader"
  | "ST" => some "ST_CIR_Dop20_ImageDownloader"
  | "SH" => some "SH_CIR_Dop20_ImageDownloader"
  | "TH" => some "TH_CIR_Dop20_ImageDownloader"
  | _ => none

/-- The environment of one `download_images_auto` call: its arguments plus
the oracles for the external effects (the dynamic `importlib` class
lookup, whose resolved class is a constructor that may itself raise, and
the per-jurisdiction per-tile fetch sequence). -/
structure AutoEnv where
  gridSpacing : ℤ
  areaName : String
  outPath : String
  imageType : String
  filenamePrefix : Option String
  mask : Option GeoSeries
  bufferSize : ℚ
  importOracle : String → Except String (ℤ → Except String ImageDownloader)
  fetchFor : String → ℕ → Rect → Except String Unit

/-- Embedding of `AutoOrthophotoDownloader._get_downloader_class`. -/
def getDownloaderClass (env : AutoEnv) (code : String) :
    Except String (ℤ → Except String ImageDownloader) :=
  if env.imageType = "RGB" then
    match stateToRgbDownloader code with
    | none => .error ("No RGB downloader available for state: " ++ code)
    | some clsName => env.importOracle clsName
  else if env.imageType = "CIR" then
    match stateToCirDownloader code with
    | none => .error ("No CIR downloader available for state: " ++ code)
    | some clsName => env.importOracle clsName
  else
    .error "image_type must be 'RGB' or 'CIR'"

/-- Embedding of the per-jurisdiction filename prefix computed in
`download_images_auto`: `f"{filename_prefix}_{state_code}"` when a truthy
prefix was given, else the bare state code.  (The source computes this
value but never uses it.) -/
def statePfx (filenamePrefix : Option String) (code : String) : String :=
  match filenamePrefix with
  | some p => if p = "" then code else p ++ "_" ++ code
  | none => code

/-- The body of the per-jurisdiction `try` block of
`download_images_auto`: resolve the downloader class, instantiate it, and
run the area download on the jurisdiction's intersection geometry written
into the jurisdiction-named subdirectory.  Note that the computed filename
prefix is dead: the call to `download_images_from_polygon` does not pass
it, so tile files are named by the bare tile index. -/
def processState (env : AutoEnv) (s : StateRec) : Except String AreaDataset :=
  match getDownloaderClass env s.code with
  | .error e => .error e
  | .ok ctor =>
    match ctor env.gridSpacing with
    | .error e => .error e
    | .ok d =>
      let intersectionGs : GeoSeries := ⟨[s.geom], "EPSG:25832"⟩
      let stateOutPath := env.outPath ++ "/" ++ replaceSlash s.name
      let _deadPfx := statePfx env.filenamePrefix s.code
      downloadImagesFromPolygon d (env.areaName ++ "_" ++ s.name) intersectionGs
        stateOutPath env.bufferSize env.mask (env.fetchFor s.code)

/-- One iteration of the jurisdiction loop of `download_images_auto`: the
`try`/`except`/`continue` around `processState` — a raising jurisdiction
contributes nothing to the result dict. -/
def processEntry (env : AutoEnv) (s : StateRec) : Option (String × AreaDataset) :=
  ((processState env s).toOption).map (fun r => (s.name, r))

/-- Embedding of `AutoOrthophotoDownloader.download_images_auto` given the
already-detected intersecting jurisdictions: raise when none intersect,
otherwise process each jurisdiction in order, skipping (and omitting from
the result mapping) every jurisdiction whose processing raises.  The
result dict is the insertion-ordered association list keyed by state
name. -/
def downloadImagesAuto (env : AutoEnv) (states : List StateRec) :
    Except String (List (String × AreaDataset)) :=
  if states = [] then
    .error "No German federal states intersect with the given area"
  else
    .ok (states.filterMap (processEntry env))

/-! The BKG downloader with its secret credential (from `wms_germany.py`). -/

/-- Embedding of the BKG service URL with the secret uuid embedded. -/
def bkgUrl (uuid : String) : String :=
  "https://sg.geodatenzentrum.de/wms_dop__" ++ uuid ++ "?"

/-- The WMS descriptor the BKG downloader constructs around its secret
uuid. -/
def bkgWms (uuid : String) : ExtendedWebMapService :=
  { url := bkgUrl uuid
    version := "1.1.1"
    resolution := 0.2
    layer_name := "rgb"
    crs := "EPSG:25832"
    format := "image/tiff" }

/-- Embedding of `BKG_RGB_Dop20_ImageDownloader.__init__`. -/
def mkBKG (grid_spacing : ℤ) (uuid : String) : Except String ImageDownloader :=
  mkImageDownloader (bkgWms uuid) grid_spacing

/-- Embedding of `BKG_RGB_Dop20_ImageDownloader.to_dict`: the inherited
serialization with the url replaced by
`self.wms.wms.url.split("__")[0] + "__<secret_uuid>?"`. -/
def bkgToDict (d : ImageDownloader) : IDDict :=
  let r := idToDict d
  { r with wms := { r.wms with url := splitFirstS "__" d.wms.url ++ "__<secret_uuid>?" } }

/-- Embedding of `BY_RGB_Dop20_ImageDownloader.__init__` (a representative
of the per-state connection catalog of `wms_germany.py`). -/
def mkBYRGB (grid_spacing : ℤ) : Except String ImageDownloader :=
  mkImageDownloader
    { url := "https://geoservices.bayern.de/od/wms/dop/v1/dop20?"
      version := "1.1.1"
      resolution := 0.2
      layer_name := "by_dop20c"
      crs := "EPSG:25832"
      format := "image/tiff" }
    grid_spacing

/-! Theorems settling the claims. -/

/-- The 10 km × 10 km axis-aligned square of claim C3, aligned to the
round-thousand grid. -/
def c3Square : Rect := ⟨0, 0, 10000, 10000⟩

/-- The grid coordinates `_make_grid` produces for `c3Square` with spacing
2000 and buffer 0: the five `np.arange` values extended by one spacing on
each side. -/
def c3Coords : List ℚ := [-2000, 0, 2000, 4000, 6000, 8000, 10000]

/-- The tile list `_make_grid` produces for `c3Square`: x-major
enumeration (outer loop over x, inner loop over y) of all 49 squares. -/
def c3Grid : List Rect :=
  c3Coords.flatMap (fun x => c3Coords.map (fun y => ⟨x, y, x + 2000, y + 2000⟩))

/-- Claim C3 is false on the code: for the 10 km × 10 km square with
spacing 2000 m and buffer 0, the grid generator produces 49 tiles, not 25.
Shapely's `intersects` counts boundary contact, so after the one-spacing
extension of the coordinate lists the whole 7 × 7 block of candidate
squares is retained, including the ring of 24 squares that merely touch
the square's boundary. -/
theorem c3_grid_count_counterexample :
    (makeGrid c3Square 0 2000).map List.length = some 49 ∧ (49 : ℕ) ≠ 25 := by
  constructor
  · with_unfolding_all rfl
  · decide

set_option maxHeartbeats 4000000 in
/-- Claim C3 amended: for the (grid-aligned) 10 km × 10 km square with
spacing 2000 m and buffer 0, the grid generator produces exactly 49
pairwise non-overlapping 2000 m × 2000 m tiles — the 25 covering tiles
plus a ring of boundary-touching tiles — enumerated 1..49 in
deterministic x-major order (outer loop over x, inner loop over y). -/
theorem c3_grid_amended :
    makeGrid c3Square 0 2000 = some c3Grid ∧
    c3Grid.length = 49 ∧
    List.Pairwise (fun a b => ¬ rectOverlap a b) c3Grid ∧
    ∀ t ∈ c3Grid, t.maxx - t.minx = 2000 ∧ t.maxy - t.miny = 2000 := by
  refine ⟨?_, ?_, ?_, ?_⟩
  · with_unfolding_all rfl
  · with_unfolding_all rfl
  · exact of_decide_eq_true (by with_unfolding_all rfl)
  · exact of_decide_eq_true (by with_unfolding_all rfl)

/-- A polygon whose bounding box is degenerate (zero width): claim C8's
edge case. -/
def c8DegeneratePolygon : Rect := ⟨0, 0, 0, 1000⟩

/-- Claim C8 is violated by the code: for a polygon whose bounding box has
zero width at an integral coordinate, `np.arange(floor(minx),
ceil(maxx), grid_spacing)` is empty and the source raises an uncaught
`IndexError` at `x_coords[0]` instead of returning at least one tile
(modelled by `none`). -/
theorem c8_degenerate_bbox_fails :
    makeGrid c8DegeneratePolygon 0 2000 = none := by
  with_unfolding_all rfl

/-- Claim C10: `delete_images` returns `False` and deletes nothing when
the directory contains a file whose suffix is neither `.png` nor `.tiff`,
and likewise returns `False` without deletion for a non-existent path.
The suffix scan happens before the first `unlink`, so the directory state
is unchanged on both error paths. -/
theorem c10_delete_images_guard (files : List String)
    (h : ∃ f ∈ files, pySuffix f ≠ ".png" ∧ pySuffix f ≠ ".tiff") :
    deleteImages (some files) = (false, some files) ∧
    deleteImages none = (false, none) := by
  refine ⟨?_, rfl⟩
  obtain ⟨f, hf, h1, h2⟩ := h
  have hany : files.any (fun f => !(pySuffix f == ".png" || pySuffix f == ".tiff")) = true := by
    rw [List.any_eq_true]
    refine ⟨f, hf, ?_⟩
    simp only [Bool.not_eq_true', Bool.or_eq_false_iff, beq_eq_false_iff_ne, ne_eq]
    exact ⟨h1, h2⟩
  have hstep : deleteImages (some files)
      = if files.any (fun f => !(pySuffix f == ".png" || pySuffix f == ".tiff")) then
          (false, some files)
        else (true, none) := rfl
  rw [hstep, hany]
  simp

/-- Witness for C10 at a concrete directory listing containing a stray
`.txt` file. -/
theorem c10_delete_images_guard_witness :
    deleteImages (some ["1.tiff", "notes.txt"]) = (false, some ["1.tiff", "notes.txt"]) ∧
    deleteImages none = (false, none) :=
  c10_delete_images_guard ["1.tiff", "notes.txt"]
    ⟨"notes.txt", by decide, by decide, by decide⟩

/-- Indexed access through `List.map` for an in-bounds index (defaults are
irrelevant within bounds). -/
lemma getD_map_lt (f : α → β) (l : List α) (i : ℕ) (da : α) (db : β)
    (h : i < l.length) : (l.map f).getD i db = f (l.getD i da) := by
  induction l generalizing i with
  | nil => cases h
  | cons a t ih =>
      cases i with
      | zero => rfl
      | succ n => exact ih n (by simpa using h)

/-- A failure-placeholder image as the per-tile exception handler of
`download_images_from_polygon` builds it. -/
def c5Placeholder : Image :=
  { image_path := none
    mask_path := none
    upper_left_x := 0
    upper_left_y := 1000
    download_time := 0
    width_m := 1000
    height_m := 1000
    width_px := 5000
    height_px := 5000
    resolution_m := 0.2
    crs := "EPSG:25832" }

/-- A dataset holding one failure placeholder. -/
def c5Dataset : AreaDataset :=
  { name := "area"
    polygon := ⟨0, 0, 1000, 1000⟩
    buffer_size := 0
    out_path := "out"
    images := some [c5Placeholder] }

/-- Claim C5 is false on the code for failure placeholders: serializing a
dataset whose image has a null `image_path` stores the string `"None"`
(Python `str(None)`), and re-hydration wraps that string in `Path`, so
the round-tripped image has `image_path = Path("None")`, not null. -/
theorem c5_roundtrip_counterexample :
    (areaDatasetToDict c5Dataset "out/polygon.geojson").toOption.map
      (fun dd => ((areaDatasetOfDict dd c5Dataset.polygon).images.getD []).map Image.image_path)
      = some [some "None"] ∧
    c5Placeholder.image_path = none := by
  constructor
  · with_unfolding_all rfl
  · rfl

/-- Claim C5 amended: serialize-then-re-hydrate preserves the image count
and, per position, the upper-left coordinates and the metric and pixel
dimensions of every image — and the `image_path` of every image whose
path is non-null.  (An image with null `image_path` re-hydrates with the
path `"None"` instead, per `c5_roundtrip_counterexample`.) -/
theorem c5_roundtrip_amended (ds : AreaDataset) (imgs : List Image)
    (h : ds.images = some imgs) (savePath : String) (poly : Rect) :
    ∃ dd, areaDatasetToDict ds savePath = .ok dd ∧
    ∃ imgs2, (areaDatasetOfDict dd poly).images = some imgs2 ∧
      imgs2.length = imgs.length ∧
      ∀ i, i < imgs.length →
        (imgs2.getD i default).upper_left_x = (imgs.getD i default).upper_left_x ∧
        (imgs2.getD i default).upper_left_y = (imgs.getD i default).upper_left_y ∧
        (imgs2.getD i default).width_m = (imgs.getD i default).width_m ∧
        (imgs2.getD i default).height_m = (imgs.getD i default).height_m ∧
        (imgs2.getD i default).width_px = (imgs.getD i default).width_px ∧
        (imgs2.getD i default).height_px = (imgs.getD i default).height_px ∧
        ((imgs.getD i default).image_path.isSome = true →
          (imgs2.getD i default).image_path = (imgs.getD i default).image_path) := by
  refine ⟨{ name := ds.name, polygon := savePath, buffer_size := ds.buffer_size,
            out_path := ds.out_path, images := imgs.map imageToDict }, ?_, ?_⟩
  · unfold areaDatasetToDict
    rw [h]
  · refine ⟨(imgs.map imageToDict).map imageOfDict, rfl, by simp, ?_⟩
    intro i hi
    rw [List.map_map]
    rw [getD_map_lt (imageOfDict ∘ imageToDict) imgs i default default hi]
    refine ⟨rfl, rfl, rfl, rfl, rfl, rfl, ?_⟩
    intro hs
    cases hp : (imgs.getD i default).image_path with
    | none => rw [hp] at hs; cases hs
    | some s =>
        show some (pyStrOpt (imgs.getD i default).image_path) = _
        rw [hp]
        rfl

/-- A successfully downloaded image (non-null path). -/
def c5GoodImage : Image :=
  { image_path := some "out/1.tiff"
    mask_path := none
    upper_left_x := 0
    upper_left_y := 1000
    download_time := 0
    width_m := 1000
    height_m := 1000
    width_px := 5000
    height_px := 5000
    resolution_m := 0.2
    crs := "EPSG:25832" }

/-- Witness for the amended C5 at a concrete one-image dataset. -/
theorem c5_roundtrip_amended_witness :
    ∃ dd, areaDatasetToDict
        { name := "area", polygon := ⟨0, 0, 1000, 1000⟩, buffer_size := 0,
          out_path := "out", images := some [c5GoodImage] } "out/polygon.geojson" = .ok dd ∧
    ∃ imgs2, (areaDatasetOfDict dd ⟨0, 0, 1000, 1000⟩).images = some imgs2 ∧
      imgs2.length = [c5GoodImage].length ∧
      ∀ i, i < [c5GoodImage].length →
        (imgs2.getD i default).upper_left_x = ([c5GoodImage].getD i default).upper_left_x ∧
        (imgs2.getD i default).upper_left_y = ([c5GoodImage].getD i default).upper_left_y ∧
        (imgs2.getD i default).width_m = ([c5GoodImage].getD i default).width_m ∧
        (imgs2.getD i default).height_m = ([c5GoodImage].getD i default).height_m ∧
        (imgs2.getD i default).width_px = ([c5GoodImage].getD i default).width_px ∧
        (imgs2.getD i default).height_px = ([c5GoodImage].getD i default).height_px ∧
        (([c5GoodImage].getD i default).image_path.isSome = true →
          (imgs2.getD i default).image_path = ([c5GoodImage].getD i default).image_path) :=
  c5_roundtrip_amended _ [c5GoodImage] rfl "out/polygon.geojson" ⟨0, 0, 1000, 1000⟩

/-- Bridge between the executable `Rat.floor` and Mathlib's `⌊·⌋`. -/
lemma ratFloor_eq_intFloor (q : ℚ) : q.floor = ⌊q⌋ := by
  rw [Rat.floor_def', Rat.floor_def]

/-- `ratTrunc` is the identity on integers. -/
lemma ratTrunc_intCast (k : ℤ) : ratTrunc (k : ℚ) = k := by
  unfold ratTrunc
  split
  · rw [ratFloor_eq_intFloor]
    exact Int.floor_intCast k
  · unfold Rat.ceil
    simp [Rat.den_intCast, Rat.num_intCast]

/-- The exact-decimal remainder vanishes exactly on integer multiples. -/
lemma decimalMod_eq_zero_iff (a b : ℚ) (hb : b ≠ 0) :
    decimalMod a b = 0 ↔ ∃ k : ℤ, a = k * b := by
  unfold decimalMod
  constructor
  · intro h
    refine ⟨ratTrunc (a / b), ?_⟩
    have h2 : a = b * (ratTrunc (a / b) : ℚ) := sub_eq_zero.mp h
    exact h2.trans (mul_comm b _)
  · rintro ⟨k, rfl⟩
    rw [mul_div_assoc, div_self hb, mul_one, ratTrunc_intCast]
    ring

/-- Claim C4: constructing the `ImageDownloader` succeeds exactly when the
grid spacing is an integer multiple of the service resolution (under
exact decimal arithmetic); otherwise the constructor raises the
`ValueError` — a pure check performed before any per-tile work (the
constructor takes no fetch oracle at all). -/
theorem c4_grid_spacing_multiple (url version layer crs fmt : String)
    (res : ℚ) (gs : ℤ) (hres : 0 < res) :
    (∃ d, mkImageDownloader ⟨url, version, res, layer, crs, fmt⟩ gs = .ok d) ↔
      ∃ k : ℤ, (gs : ℚ) = k * res := by
  unfold mkImageDownloader
  by_cases hm : decimalMod (gs : ℚ) res = 0
  · rw [if_neg (not_not_intro hm)]
    constructor
    · intro _
      exact (decimalMod_eq_zero_iff _ _ (ne_of_gt hres)).mp hm
    · intro _
      exact ⟨_, rfl⟩
  · rw [if_pos hm]
    constructor
    · rintro ⟨d, hd⟩
      cases hd
    · intro hk
      exact absurd ((decimalMod_eq_zero_iff _ _ (ne_of_gt hres)).mpr hk) hm

/-- Witness for C4 at the BY DOP20 resolution 0.2 with spacing 1000. -/
theorem c4_grid_spacing_multiple_witness :
    (0 : ℚ) < 0.2 ∧
    ((∃ d, mkImageDownloader
        ⟨"https://geoservices.bayern.de/od/wms/dop/v1/dop20?", "1.1.1", 0.2,
          "by_dop20c", "EPSG:25832", "image/tiff"⟩ 1000 = .ok d) ↔
      ∃ k : ℤ, ((1000 : ℤ) : ℚ) = k * 0.2) :=
  ⟨by norm_num, c4_grid_spacing_multiple _ _ _ _ _ _ _ (by norm_num)⟩

/-- An invalid `GeoSeries` makes `_validate_geoseries` raise. -/
lemma validate_error_of_invalid (d : ImageDownloader) (gs : GeoSeries)
    (argname : String) (h : gs.geoms.length ≠ 1 ∨ gs.crs ≠ d.wms.crs) :
    ∃ e, validateGeoseries d gs argname = .error e := by
  unfold validateGeoseries
  by_cases h1 : gs.geoms.length = 1
  · have h2 := h.resolve_left (not_not_intro h1)
    rw [if_neg (not_not_intro h1), if_pos h2]
    exact ⟨_, rfl⟩
  · rw [if_pos h1]
    exact ⟨_, rfl⟩

/-- A valid `GeoSeries` passes `_validate_geoseries`. -/
lemma validate_ok_of_valid (d : ImageDownloader) (gs : GeoSeries)
    (argname : String) (h1 : gs.geoms.length = 1) (h2 : gs.crs = d.wms.crs) :
    validateGeoseries d gs argname = .ok () := by
  unfold validateGeoseries
  rw [if_neg (not_not_intro h1), if_neg (not_not_intro h2)]

/-- Claim C7: when the area polygon series (or the mask series, if
present) is not a single-geometry series or carries a CRS differing from
the service's, `download_images_from_polygon` raises the validation
`ValueError` — for every fetch oracle, i.e. before any network request,
and regardless of what the grid computation would do. -/
theorem c7_validation_rejects (d : ImageDownloader) (areaName outPath fileExt : String)
    (bufferSize : ℚ) (areaPolygon : GeoSeries) (mask : Option GeoSeries)
    (fetch : ℕ → Rect → Except String Unit)
    (h : areaPolygon.geoms.length ≠ 1 ∨ areaPolygon.crs ≠ d.wms.crs ∨
         ∃ m, mask = some m ∧ (m.geoms.length ≠ 1 ∨ m.crs ≠ d.wms.crs)) :
    ∃ e, downloadImagesFromPolygon d areaName areaPolygon outPath bufferSize mask
      fetch fileExt = .error e := by
  by_cases ha : areaPolygon.geoms.length ≠ 1 ∨ areaPolygon.crs ≠ d.wms.crs
  · obtain ⟨e, he⟩ := validate_error_of_invalid d areaPolygon "area_polygon" ha
    refine ⟨e, ?_⟩
    unfold downloadImagesFromPolygon prepareImageDownload
    rw [he]
  · push_neg at ha
    have hok := validate_ok_of_valid d areaPolygon "area_polygon" ha.1 ha.2
    rcases h with h1 | h2 | ⟨m, rfl, hm⟩
    · exact absurd h1 (not_not_intro ha.1)
    · exact absurd h2 (not_not_intro ha.2)
    · obtain ⟨e, he⟩ := validate_error_of_invalid d m "mask" hm
      have hvm : validateMask d (some m) = .error e := he
      refine ⟨e, ?_⟩
      unfold downloadImagesFromPolygon prepareImageDownload
      rw [hok, hvm]

/-- Witness for C7: a series whose CRS differs from the service CRS is
rejected. -/
theorem c7_validation_rejects_witness :
    ∃ e, downloadImagesFromPolygon
      { wms := { url := "u", version := "1.1.1", resolution := 0.2,
                 layer_name := "rgb", crs := "EPSG:25832", format := "image/tiff" },
        grid_spacing := 1000, width_m := 1000, height_m := 1000,
        width_px := 5000, height_px := 5000 }
      "area" ⟨[⟨0, 0, 1000, 1000⟩], "EPSG:4326"⟩ "out" 0 none
      (fun _ _ => .ok ()) "tiff" = .error e :=
  c7_validation_rejects _ "area" "out" "tiff" 0 _ none _
    (Or.inr (Or.inl (by decide)))

/-- The download loop yields one image per grid tile. -/
lemma downloadLoop_length (d : ImageDownloader) (o ext : String)
    (m : Option GeoSeries) (f : ℕ → Rect → Except String Unit) :
    ∀ (i : ℕ) (grid : List Rect), (downloadLoop d o ext m f i grid).length = grid.length := by
  intro i grid
  induction grid generalizing i with
  | nil => rfl
  | cons t ts ih => simp [downloadLoop, ih]

/-- Indexed access into the download loop: the image at position `k` is
the step applied to the tile at `k` with the running index `i + k`. -/
lemma downloadLoop_getD (d : ImageDownloader) (o ext : String)
    (m : Option GeoSeries) (f : ℕ → Rect → Except String Unit) :
    ∀ (grid : List Rect) (i k : ℕ), k < grid.length →
      (downloadLoop d o ext m f i grid).getD k default =
        downloadStep d o ext m f (i + k) (grid.getD k default) := by
  intro grid
  induction grid with
  | nil => intro i k h; cases h
  | cons t ts ih =>
      intro i k h
      cases k with
      | zero => rfl
      | succ n =>
          have h' : n < ts.length := by simpa using h
          have h2 := ih (i + 1) n h'
          have h3 : i + 1 + n = i + (n + 1) := by omega
          rw [h3] at h2
          exact h2

/-- A failing per-tile fetch produces exactly the failure placeholder of
the source's exception handler. -/
lemma downloadStep_fail (d : ImageDownloader) (o ext : String)
    (m : Option GeoSeries) (f : ℕ → Rect → Except String Unit) (i : ℕ) (tile : Rect)
    (h : ∃ e, f (i + 1) tile = .error e) :
    downloadStep d o ext m f i tile =
      { image_path := none, mask_path := none,
        upper_left_x := tile.minx, upper_left_y := tile.maxy,
        download_time := 0,
        width_m := (d.grid_spacing : ℚ), height_m := (d.grid_spacing : ℚ),
        width_px := d.width_px, height_px := d.height_px,
        resolution_m := d.wms.resolution, crs := d.wms.crs } := by
  obtain ⟨e, he⟩ := h
  unfold downloadStep downloadSingleImage
  rw [he]

/-- A successful per-tile fetch produces an image whose path is the
index-numbered file under the output directory. -/
lemma downloadStep_succ (d : ImageDownloader) (o ext : String)
    (m : Option GeoSeries) (f : ℕ → Rect → Except String Unit) (i : ℕ) (tile : Rect)
    (h : f (i + 1) tile = .ok ()) :
    (downloadStep d o ext m f i tile).image_path =
      some (o ++ "/" ++ toString (i + 1) ++ "." ++ ext) := by
  unfold downloadStep downloadSingleImage
  rw [h]

/-- Claim C1: when the per-tile fetch/decode/write raises on exactly the
1-based position `k` of the prepared grid and succeeds elsewhere,
`download_images_from_polygon` does not abort: it returns a dataset with
one image per grid tile in grid order, the image at position `k` is the
failure placeholder (null paths, upper-left corner `(minx, maxy)` of tile
`k`, nominal metric and pixel dimensions), and every other position has a
populated `image_path`. -/
theorem c1_partial_failure (d : ImageDownloader) (areaName outPath fileExt : String)
    (areaPolygon : GeoSeries) (bufferSize : ℚ) (mask : Option GeoSeries)
    (fetch : ℕ → Rect → Except String Unit) (grid : List Rect) (k : ℕ)
    (hgrid : prepareImageDownload d areaPolygon bufferSize mask = .ok grid)
    (hk1 : 1 ≤ k) (hk2 : k ≤ grid.length)
    (hfail : ∀ r, ∃ e, fetch k r = .error e)
    (hsucc : ∀ i r, i ≠ k → fetch i r = .ok ()) :
    ∃ ds images,
      downloadImagesFromPolygon d areaName areaPolygon outPath bufferSize mask
        fetch fileExt = .ok ds ∧
      ds.images = some images ∧
      images.length = grid.length ∧
      (images.getD (k - 1) default).image_path = none ∧
      (images.getD (k - 1) default).mask_path = none ∧
      (images.getD (k - 1) default).upper_left_x = (grid.getD (k - 1) default).minx ∧
      (images.getD (k - 1) default).upper_left_y = (grid.getD (k - 1) default).maxy ∧
      (images.getD (k - 1) default).width_m = (d.grid_spacing : ℚ) ∧
      (images.getD (k - 1) default).height_m = (d.grid_spacing : ℚ) ∧
      (images.getD (k - 1) default).width_px = d.width_px ∧
      (images.getD (k - 1) default).height_px = d.height_px ∧
      ∀ i, i < images.length → i ≠ k - 1 →
        ((images.getD i default).image_path).isSome = true := by
  have hdl : downloadImagesFromPolygon d areaName areaPolygon outPath bufferSize mask
      fetch fileExt = .ok
        { name := areaName, polygon := areaPolygon.geoms.headI,
          buffer_size := bufferSize, out_path := outPath,
          images := some (downloadLoop d outPath fileExt mask fetch 0 grid) } := by
    unfold downloadImagesFromPolygon
    rw [hgrid]
  refine ⟨_, downloadLoop d outPath fileExt mask fetch 0 grid, hdl, rfl,
    downloadLoop_length d outPath fileExt mask fetch 0 grid, ?_⟩
  have hk3 : k - 1 < grid.length := by omega
  have hstep := downloadLoop_getD d outPath fileExt mask fetch grid 0 (k - 1) hk3
  have hfail2 : ∃ e, fetch (0 + (k - 1) + 1) (grid.getD (k - 1) default) = .error e := by
    have hidx : 0 + (k - 1) + 1 = k := by omega
    rw [hidx]
    exact hfail _
  have hph := downloadStep_fail d outPath fileExt mask fetch (0 + (k - 1))
    (grid.getD (k - 1) default) hfail2
  rw [hstep, hph]
  refine ⟨rfl, rfl, rfl, rfl, rfl, rfl, rfl, rfl, ?_⟩
  intro i hi hne
  have hi2 : i < grid.length := by
    rwa [downloadLoop_length] at hi
  rw [downloadLoop_getD d outPath fileExt mask fetch grid 0 i hi2]
  have hne2 : 0 + i + 1 ≠ k := by omega
  rw [downloadStep_succ d outPath fileExt mask fetch (0 + i)
    (grid.getD i default) (hsucc _ _ hne2)]
  rfl

/-- The concrete downloader used by the C1 witness (the BY DOP20 profile
with spacing 1000). -/
def c1D : ImageDownloader :=
  { wms := { url := "https://geoservices.bayern.de/od/wms/dop/v1/dop20?",
             version := "1.1.1", resolution := 0.2, layer_name := "by_dop20c",
             crs := "EPSG:25832", format := "image/tiff" },
    grid_spacing := 1000, width_m := 1000, height_m := 1000,
    width_px := 5000, height_px := 5000 }

/-- The concrete single-geometry area series of the C1 witness. -/
def c1Area : GeoSeries := ⟨[⟨0, 0, 1000, 1000⟩], "EPSG:25832"⟩

/-- The prepared grid of the C1 witness (a 3 × 3 block of 1 km tiles). -/
def c1Grid : List Rect := (prepareImageDownload c1D c1Area 0 none).toOption.getD []

/-- The fetch oracle of the C1 witness: raises exactly on tile 2. -/
def c1Fetch : ℕ → Rect → Except String Unit :=
  fun i _ => if i = 2 then .error "boom" else .ok ()

/-- Witness for C1: a 9-tile download whose fetch raises exactly on tile 2
returns 9 images with the placeholder at position 2. -/
theorem c1_partial_failure_witness :
    ∃ ds images,
      downloadImagesFromPolygon c1D "area" c1Area "out" 0 none
        c1Fetch "tiff" = .ok ds ∧
      ds.images = some images ∧
      images.length = c1Grid.length ∧
      (images.getD (2 - 1) default).image_path = none ∧
      (images.getD (2 - 1) default).mask_path = none ∧
      (images.getD (2 - 1) default).upper_left_x = (c1Grid.getD (2 - 1) default).minx ∧
      (images.getD (2 - 1) default).upper_left_y = (c1Grid.getD (2 - 1) default).maxy ∧
      (images.getD (2 - 1) default).width_m = (c1D.grid_spacing : ℚ) ∧
      (images.getD (2 - 1) default).height_m = (c1D.grid_spacing : ℚ) ∧
      (images.getD (2 - 1) default).width_px = c1D.width_px ∧
      (images.getD (2 - 1) default).height_px = c1D.height_px ∧
      ∀ i, i < images.length → i ≠ 2 - 1 →
        ((images.getD i default).image_path).isSome = true :=
  c1_partial_failure c1D "area" "out" "tiff" c1Area 0 none c1Fetch c1Grid 2
    (by with_unfolding_all rfl)
    (by omega)
    (of_decide_eq_true (by with_unfolding_all rfl))
    (fun r => ⟨"boom", rfl⟩)
    (fun i r h => by unfold c1Fetch; rw [if_neg h])

/-- When every jurisdiction in a list processes successfully, the
jurisdiction loop keeps them all, in order, under their own names. -/
lemma filterMap_ok_entries (env : AutoEnv) (l : List StateRec)
    (h : ∀ s ∈ l, ∃ r, processState env s = .ok r) :
    (l.filterMap (processEntry env)).length = l.length ∧
    (∀ s ∈ l, ∃ r, processState env s = .ok r ∧
      (s.name, r) ∈ l.filterMap (processEntry env)) ∧
    (∀ p ∈ l.filterMap (processEntry env), ∃ s, s ∈ l ∧ p.1 = s.name) := by
  induction l with
  | nil => exact ⟨rfl, by simp, by simp⟩
  | cons a t ih =>
      obtain ⟨r, hr⟩ := h a (List.mem_cons_self a t)
      have hfa : processEntry env a = some (a.name, r) := by
        unfold processEntry
        rw [hr]
        rfl
      have hcons : (a :: t).filterMap (processEntry env)
          = (a.name, r) :: t.filterMap (processEntry env) := by
        rw [List.filterMap_cons, hfa]
      obtain ⟨ih1, ih2, ih3⟩ := ih (fun s hs => h s (List.mem_cons_of_mem a hs))
      refine ⟨?_, ?_, ?_⟩
      · rw [hcons]
        simp [ih1]
      · intro s hs
        rcases List.mem_cons.mp hs with h1 | h2
        · subst h1
          exact ⟨r, hr, by rw [hcons]; exact List.mem_cons_self _ _⟩
        · obtain ⟨r2, hr2, hmem⟩ := ih2 s h2
          exact ⟨r2, hr2, by rw [hcons]; exact List.mem_cons_of_mem _ hmem⟩
      · intro p hp
        rw [hcons] at hp
        rcases List.mem_cons.mp hp with h1 | h2
        · exact ⟨a, List.mem_cons_self a t, by rw [h1]⟩
        · obtain ⟨s, hs, he⟩ := ih3 p h2
          exact ⟨s, List.mem_cons_of_mem a hs, he⟩

/-- Claim C2: when exactly one detected jurisdiction `j` fails (its class
fails to resolve, its constructor raises, or its download raises) and the
other jurisdictions process successfully, `download_images_auto` returns
a mapping with one entry per surviving jurisdiction — `N − 1` entries,
omitting `j` — and the result equals the run with `j` absent from the
detection list. -/
theorem c2_jurisdiction_isolation (env : AutoEnv) (states : List StateRec)
    (j : StateRec) (hj : j ∈ states) (hcount : states.count j = 1)
    (hfail : (processState env j).toOption = none)
    (hok : ∀ s ∈ states, s ≠ j → ∃ r, processState env s = .ok r)
    (hname : ∀ s ∈ states, s ≠ j → s.name ≠ j.name) :
    ∃ m, downloadImagesAuto env states = .ok m ∧
      m.length = states.length - 1 ∧
      (∀ p ∈ m, p.1 ≠ j.name) ∧
      (∀ s ∈ states, s ≠ j → ∃ r, processState env s = .ok r ∧ (s.name, r) ∈ m) ∧
      (states.erase j ≠ [] → downloadImagesAuto env (states.erase j) = .ok m) := by
  obtain ⟨l1, l2, hsplit⟩ := List.append_of_mem hj
  subst hsplit
  have hc1 : l1.count j = 0 ∧ l2.count j = 0 := by
    rw [List.count_append, List.count_cons_self] at hcount
    omega
  have hl1 : j ∉ l1 := List.count_eq_zero.mp hc1.1
  have hl2 : j ∉ l2 := List.count_eq_zero.mp hc1.2
  have hentryj : processEntry env j = none := by
    unfold processEntry
    rw [hfail]
    rfl
  have hm : (l1 ++ j :: l2).filterMap (processEntry env)
      = l1.filterMap (processEntry env) ++ l2.filterMap (processEntry env) := by
    rw [List.filterMap_append, List.filterMap_cons, hentryj]
  have hok1 : ∀ s ∈ l1, ∃ r, processState env s = .ok r := by
    intro s hs
    refine hok s (by simp [hs]) ?_
    intro he
    exact hl1 (he ▸ hs)
  have hok2 : ∀ s ∈ l2, ∃ r, processState env s = .ok r := by
    intro s hs
    refine hok s (by simp [hs]) ?_
    intro he
    exact hl2 (he ▸ hs)
  obtain ⟨ha1, ha2, ha3⟩ := filterMap_ok_entries env l1 hok1
  obtain ⟨hb1, hb2, hb3⟩ := filterMap_ok_entries env l2 hok2
  have hne : l1 ++ j :: l2 ≠ [] := List.ne_nil_of_mem hj
  refine ⟨l1.filterMap (processEntry env) ++ l2.filterMap (processEntry env),
    ?_, ?_, ?_, ?_, ?_⟩
  · unfold downloadImagesAuto
    rw [if_neg hne, hm]
  · simp only [List.length_append, List.length_cons, ha1, hb1]
    omega
  · intro p hp
    rcases List.mem_append.mp hp with h1 | h2
    · obtain ⟨s, hs, he⟩ := ha3 p h1
      rw [he]
      refine hname s (by simp [hs]) ?_
      intro hcon
      exact hl1 (hcon ▸ hs)
    · obtain ⟨s, hs, he⟩ := hb3 p h2
      rw [he]
      refine hname s (by simp [hs]) ?_
      intro hcon
      exact hl2 (hcon ▸ hs)
  · intro s hs hsne
    rcases List.mem_append.mp hs with h1 | h2
    · obtain ⟨r, hr, hmem⟩ := ha2 s h1
      exact ⟨r, hr, List.mem_append_left _ hmem⟩
    · rcases List.mem_cons.mp h2 with h3 | h4
      · exact absurd h3 hsne
      · obtain ⟨r, hr, hmem⟩ := hb2 s h4
        exact ⟨r, hr, List.mem_append_right _ hmem⟩
  · intro herase
    have he : (l1 ++ j :: l2).erase j = l1 ++ l2 := by
      rw [List.erase_append_right _ hl1, List.erase_cons_head]
    rw [he] at herase ⊢
    unfold downloadImagesAuto
    rw [if_neg herase, List.filterMap_append]

/-- The first (succeeding) jurisdiction of the C2 witness. -/
def c2S1 : StateRec := ⟨"Bayern", "BY", ⟨0, 0, 1000, 1000⟩⟩

/-- The second jurisdiction of the C2 witness; its downloader class fails
to resolve. -/
def c2S2 : StateRec := ⟨"Hessen", "HE", ⟨0, 0, 1000, 1000⟩⟩

/-- The environment of the C2 witness: the import oracle only resolves the
BY downloader class, every network fetch succeeds. -/
def c2Env : AutoEnv :=
  { gridSpacing := 1000
    areaName := "area"
    outPath := "out"
    imageType := "RGB"
    filenamePrefix := none
    mask := none
    bufferSize := 0
    importOracle := fun n =>
      if n = "BY_RGB_Dop20_ImageDownloader" then .ok mkBYRGB
      else .error ("Could not import " ++ n)
    fetchFor := fun _ _ _ => .ok () }

/-- Witness for C2: of two detected jurisdictions, HE's class fails to
resolve; the result maps only Bayern and equals the run without HE. -/
theorem c2_jurisdiction_isolation_witness :
    ∃ m, downloadImagesAuto c2Env [c2S1, c2S2] = .ok m ∧
      m.length = [c2S1, c2S2].length - 1 ∧
      (∀ p ∈ m, p.1 ≠ c2S2.name) ∧
      (∀ s ∈ [c2S1, c2S2], s ≠ c2S2 →
        ∃ r, processState c2Env s = .ok r ∧ (s.name, r) ∈ m) ∧
      ([c2S1, c2S2].erase c2S2 ≠ [] →
        downloadImagesAuto c2Env ([c2S1, c2S2].erase c2S2) = .ok m) :=
  c2_jurisdiction_isolation c2Env [c2S1, c2S2] c2S2
    (List.mem_cons_of_mem _ (List.mem_cons_self _ _))
    (by with_unfolding_all rfl)
    (by with_unfolding_all rfl)
    (fun s hs hne => by
      rcases List.mem_cons.mp hs with h1 | h2
      · subst h1
        exact ⟨(processState c2Env c2S1).toOption.getD default,
          by with_unfolding_all rfl⟩
      · rcases List.mem_cons.mp h2 with h3 | h4
        · exact absurd h3 hne
        · cases h4)
    (fun s hs hne => by
      rcases List.mem_cons.mp hs with h1 | h2
      · subst h1
        decide
      · rcases List.mem_cons.mp h2 with h3 | h4
        · exact absurd h3 hne
        · cases h4)

/-- The boolean prefix test agrees with the prefix relation. -/
lemma listPreB_iff (p : List Char) : ∀ s, listPreB p s = true ↔ listPre p s := by
  induction p with
  | nil =>
      intro s
      constructor
      · intro _
        exact ⟨s, rfl⟩
      · intro _
        rfl
  | cons a as ih =>
      intro s
      cases s with
      | nil =>
          constructor
          · intro h
            cases h
          · rintro ⟨t, h⟩
            cases h
      | cons b bs =>
          rw [show listPreB (a :: as) (b :: bs) = (a == b && listPreB as bs) from rfl,
            Bool.and_eq_true, beq_iff_eq, ih bs]
          constructor
          · rintro ⟨rfl, t, rfl⟩
            exact ⟨t, rfl⟩
          · rintro ⟨t, h⟩
            injection h with h1 h2
            exact ⟨h1, t, h2⟩

/-- `splitFirst` cuts exactly at the first occurrence of the separator:
prepending a prefix free of occurrences leaves the prefix intact. -/
lemma splitFirst_app (sep : List Char) : ∀ (pre t : List Char), listPre sep t →
    (∀ n, n < pre.length → ¬ listPre sep (pre.drop n ++ t)) →
    splitFirst sep (pre ++ t) = pre := by
  intro pre
  induction pre with
  | nil =>
      intro t hstop _
      cases t with
      | nil =>
          obtain ⟨t', h⟩ := hstop
          obtain ⟨h1, h2⟩ := List.append_eq_nil.mp h
          subst h1
          rfl
      | cons c r =>
          have hb : listPreB sep (c :: r) = true := (listPreB_iff sep (c :: r)).mpr hstop
          show splitFirst sep (c :: r) = []
          rw [show splitFirst sep (c :: r)
            = if listPreB sep (c :: r) then [] else c :: splitFirst sep r from rfl, hb]
          rfl
  | cons c pre' ih =>
      intro t hstop hno
      have h0 : ¬ listPre sep (c :: (pre' ++ t)) := by
        have := hno 0 (by simp)
        simpa using this
      have hb : listPreB sep (c :: (pre' ++ t)) = false := by
        rw [Bool.eq_false_iff]
        intro hh
        exact h0 ((listPreB_iff _ _).mp hh)
      show splitFirst sep (c :: (pre' ++ t)) = c :: pre'
      rw [show splitFirst sep (c :: (pre' ++ t))
        = if listPreB sep (c :: (pre' ++ t)) then []
          else c :: splitFirst sep (pre' ++ t) from rfl, hb]
      simp only [if_neg Bool.false_ne_true]
      rw [ih t hstop (fun n hn => hno (n + 1) (by simpa using Nat.succ_lt_succ hn))]

/-- Two-character prefix tests only look at the first two characters. -/
lemma listPre_two (x y a b : Char) (w : List Char) :
    listPre [x, y] (a :: b :: w) ↔ x = a ∧ y = b := by
  constructor
  · rintro ⟨t, h⟩
    injection h with h1 h2
    injection h2 with h3 h4
    exact ⟨h1, h3⟩
  · rintro ⟨rfl, rfl⟩
    exact ⟨w, rfl⟩

/-- Whether `"__"` is a prefix of `p2 ++ "__" ++ u` does not depend on `u`
when `p2` is non-empty. -/
lemma listPre_two_swap (p2 : List Char) (h : p2 ≠ []) (u v : List Char) :
    listPre ['_', '_'] (p2 ++ '_' :: '_' :: u) ↔
    listPre ['_', '_'] (p2 ++ '_' :: '_' :: v) := by
  cases p2 with
  | nil => exact absurd rfl h
  | cons a p2' =>
      cases p2' with
      | nil =>
          rw [show ([a] ++ '_' :: '_' :: u) = a :: '_' :: ('_' :: u) from rfl,
            show ([a] ++ '_' :: '_' :: v) = a :: '_' :: ('_' :: v) from rfl,
            listPre_two, listPre_two]
      | cons a2 rest =>
          rw [show ((a :: a2 :: rest) ++ '_' :: '_' :: u)
              = a :: a2 :: (rest ++ '_' :: '_' :: u) from rfl,
            show ((a :: a2 :: rest) ++ '_' :: '_' :: v)
              = a :: a2 :: (rest ++ '_' :: '_' :: v) from rfl,
            listPre_two, listPre_two]

/-- A nonempty drop of a list inside its length. -/
lemma drop_ne_nil_of_lt (l : List Char) (n : ℕ) (h : n < l.length) :
    l.drop n ≠ [] := by
  intro hcon
  have hlen := List.length_drop n l
  rw [hcon] at hlen
  simp at hlen
  omega

/-- The constant part of the BKG service URL before the credential. -/
def bkgBase : String := "https://sg.geodatenzentrum.de/wms_dop"

/-- `url.split("__")[0]` on the BKG URL recovers exactly the constant base,
for every credential string. -/
lemma bkg_split (uuid : String) : splitFirstS "__" (bkgUrl uuid) = bkgBase := by
  obtain ⟨ud⟩ := uuid
  show String.mk (splitFirst "__".data (bkgBase.data ++ '_' :: '_' :: (ud ++ ['?'])))
    = bkgBase
  have hstop : listPre "__".data ('_' :: '_' :: (ud ++ ['?'])) := ⟨ud ++ ['?'], rfl⟩
  have hdec : ∀ n, n < 37 →
      listPreB ['_', '_'] (bkgBase.data.drop n ++ '_' :: '_' :: ([] : List Char)) = false := by
    decide
  have hno : ∀ n, n < bkgBase.data.length →
      ¬ listPre "__".data (bkgBase.data.drop n ++ '_' :: '_' :: (ud ++ ['?'])) := by
    intro n hn hcon
    have hne : bkgBase.data.drop n ≠ [] := drop_ne_nil_of_lt _ _ hn
    have hswap := (listPre_two_swap (bkgBase.data.drop n) hne (ud ++ ['?']) []).mp hcon
    have hb := (listPreB_iff _ _).mpr hswap
    have hlen : bkgBase.data.length = 37 := by decide
    rw [hdec n (by omega)] at hb
    cases hb
  rw [splitFirst_app "__".data bkgBase.data ('_' :: '_' :: (ud ++ ['?'])) hstop hno]

/-- A successful `mkImageDownloader` stores the given WMS descriptor. -/
lemma mk_ok_wms (w : ExtendedWebMapService) (g : ℤ) (d : ImageDownloader)
    (h : mkImageDownloader w g = .ok d) : d.wms = w := by
  unfold mkImageDownloader at h
  split at h
  · cases h
  · injection h with h2
    rw [← h2]

/-- A string containing a character absent from `s` cannot occur inside
`s`. -/
lemma no_contains_of_missing_char (s sub : String) (c : Char)
    (hc : c ∈ sub.data) (hs : c ∉ s.data) : ¬ strContains s sub := by
  rintro ⟨l, r, he⟩
  apply hs
  rw [← he]
  simp only [List.mem_append]
  exact Or.inl (Or.inr hc)

/-- Claim C9: for every credential containing a hyphen (every syntactic
UUID does) with which the BKG downloader was successfully constructed,
the serialized dictionary replaces the credential in the `url` field by
the constant redacted placeholder, and the credential appears verbatim in
no string field of the serialized dictionary (the remaining fields are
numbers, which cannot contain a string).  The redacted URL and the other
string fields are hyphen-free constants, so no hyphenated credential can
occur in them. -/
theorem c9_secret_redaction (gs : ℤ) (uuid : String) (d : ImageDownloader)
    (hmk : mkBKG gs uuid = .ok d) (hyph : '-' ∈ uuid.data) :
    (bkgToDict d).wms.url = "https://sg.geodatenzentrum.de/wms_dop__<secret_uuid>?" ∧
    ¬ strContains (bkgToDict d).wms.url uuid ∧
    ¬ strContains (bkgToDict d).wms.layer_name uuid ∧
    ¬ strContains (bkgToDict d).wms.crs uuid ∧
    ¬ strContains (bkgToDict d).wms.format uuid ∧
    ¬ strContains (bkgToDict d).wms.version uuid := by
  have hwms : d.wms = bkgWms uuid := mk_ok_wms _ _ _ hmk
  have hurl : (bkgToDict d).wms.url = splitFirstS "__" (bkgUrl uuid) ++ "__<secret_uuid>?" := by
    show splitFirstS "__" d.wms.url ++ "__<secret_uuid>?" = _
    rw [hwms]
    rfl
  rw [bkg_split] at hurl
  have hurl2 : (bkgToDict d).wms.url
      = "https://sg.geodatenzentrum.de/wms_dop__<secret_uuid>?" := by
    rw [hurl]
    rfl
  have hlayer : (bkgToDict d).wms.layer_name = "rgb" := by
    show d.wms.layer_name = "rgb"
    rw [hwms]
    rfl
  have hcrs : (bkgToDict d).wms.crs = "EPSG:25832" := by
    show d.wms.crs = "EPSG:25832"
    rw [hwms]
    rfl
  have hfmt : (bkgToDict d).wms.format = "image/tiff" := by
    show d.wms.format = "image/tiff"
    rw [hwms]
    rfl
  have hver : (bkgToDict d).wms.version = "1.1.1" := by
    show d.wms.version = "1.1.1"
    rw [hwms]
    rfl
  refine ⟨hurl2, ?_, ?_, ?_, ?_, ?_⟩
  · rw [hurl2]
    exact no_contains_of_missing_char _ _ '-' hyph (by decide)
  · rw [hlayer]
    exact no_contains_of_missing_char _ _ '-' hyph (by decide)
  · rw [hcrs]
    exact no_contains_of_missing_char _ _ '-' hyph (by decide)
  · rw [hfmt]
    exact no_contains_of_missing_char _ _ '-' hyph (by decide)
  · rw [hver]
    exact no_contains_of_missing_char _ _ '-' hyph (by decide)

/-- The concrete BKG downloader of the C9 witness. -/
def c9D : ImageDownloader :=
  { wms := { url := bkgUrl "123e4567-e89b-12d3-a456-426614174000",
             version := "1.1.1", resolution := 0.2, layer_name := "rgb",
             crs := "EPSG:25832", format := "image/tiff" },
    grid_spacing := 1000, width_m := 1000, height_m := 1000,
    width_px := 5000, height_px := 5000 }

/-- Witness for C9 at a concrete hyphenated uuid. -/
theorem c9_secret_redaction_witness :
    (bkgToDict c9D).wms.url = "https://sg.geodatenzentrum.de/wms_dop__<secret_uuid>?" ∧
    ¬ strContains (bkgToDict c9D).wms.url "123e4567-e89b-12d3-a456-426614174000" ∧
    ¬ strContains (bkgToDict c9D).wms.layer_name "123e4567-e89b-12d3-a456-426614174000" ∧
    ¬ strContains (bkgToDict c9D).wms.crs "123e4567-e89b-12d3-a456-426614174000" ∧
    ¬ strContains (bkgToDict c9D).wms.format "123e4567-e89b-12d3-a456-426614174000" ∧
    ¬ strContains (bkgToDict c9D).wms.version "123e4567-e89b-12d3-a456-426614174000" :=
  c9_secret_redaction 1000 "123e4567-e89b-12d3-a456-426614174000" c9D
    (by with_unfolding_all rfl) (by decide)

/-- The C6 environment: the C2 witness environment with a filename prefix
supplied. -/
def c6Env : AutoEnv := { c2Env with filenamePrefix := some "test" }

/-- The result mapping of the C6 run: one jurisdiction (Bayern/BY), a
1 km² area, spacing 1000, prefix `"test"`. -/
def c6Result : List (String × AreaDataset) :=
  (downloadImagesAuto c6Env [c2S1]).toOption.getD []

/-- Claim C6 is violated by the code: `download_images_auto` computes the
per-jurisdiction prefix (`test_BY` here) but never passes it on —
`download_images_from_polygon` takes no prefix parameter and names every
tile file by its bare index.  All nine images of the run are written as
`out/Bayern/{tile_index}.tiff`; none carries the `test_BY` prefix the
claim (and the repository's own documentation of `filename_prefix`)
promises. -/
theorem c6_filename_prefix_ignored :
    statePfx (some "test") "BY" = "test_BY" ∧
    c6Result.map Prod.fst = ["Bayern"] ∧
    ((c6Result.getD 0 ("", default)).2.images.getD []).map Image.image_path
      = [some "out/Bayern/1.tiff", some "out/Bayern/2.tiff", some "out/Bayern/3.tiff",
         some "out/Bayern/4.tiff", some "out/Bayern/5.tiff", some "out/Bayern/6.tiff",
         some "out/Bayern/7.tiff", some "out/Bayern/8.tiff", some "out/Bayern/9.tiff"] ∧
    ("out/Bayern/1.tiff" : String) ≠ "out/Bayern/test_BY_1.tiff" := by
  refine ⟨rfl, ?_, ?_, by decide⟩
  · with_unfolding_all rfl
  · with_unfolding_all rfl

end Ortho
